import Mathlib

/-!
Verification development for the agriconnect_ai repository.

The mobile client data contracts (`TransportJob`, `FarmerRequest`,
`TransporterProfile` with their `toJson`/`fromJson` pairs), the farmer form
validators, the transporter screen job list and the admin dashboard mock
data are embedded from the source files.  The backend decision engine
(matching, spoilage model, job lifecycle, reservation protocol) ships no
code in the repository; those parts are modelled from the specification and
are marked as such in their doc comments.
-/

/-- Shallow embedding of the JSON values exchanged by the clients.  Dart
keeps `int` and `double` apart at runtime, so the embedding does too;
`jnum` carries the rational payload of a Dart double. -/
inductive Json where
  | jnull : Json
  | jbool (b : Bool) : Json
  | jint (n : Int) : Json
  | jnum (q : ℚ) : Json
  | jstr (s : String) : Json
  | jobj (fields : List (String × Json)) : Json

/-- Reading `json[key]` on a Dart map: a missing key yields `null`. -/
def jLookup (fields : List (String × Json)) (key : String) : Json :=
  match fields with
  | [] => Json.jnull
  | (k, v) :: rest => if k = key then v else jLookup rest key

/-- Runtime cast of a dynamic value to a non-nullable Dart `String`
(a null or non-string value throws, modelled as `none`). -/
def asString : Json → Option String
  | Json.jstr s => some s
  | _ => none

/-- Runtime cast of a dynamic value to a Dart `String?`. -/
def asOptString : Json → Option (Option String)
  | Json.jnull => some none
  | Json.jstr s => some (some s)
  | _ => none

/-- Runtime cast of a dynamic value to a Dart `int?`. -/
def asOptInt : Json → Option (Option Int)
  | Json.jnull => some none
  | Json.jint n => some (some n)
  | _ => none

/-- Runtime cast of a dynamic value to a Dart `bool`. -/
def asBool : Json → Option Bool
  | Json.jbool b => some b
  | _ => none

/-- Runtime cast of a dynamic value to a Dart `Map<String, dynamic>`. -/
def asObj : Json → Option (List (String × Json))
  | Json.jobj f => some f
  | _ => none

/-- Runtime cast of a dynamic value to a Dart `Map<String, dynamic>?`. -/
def asOptObj : Json → Option (Option (List (String × Json)))
  | Json.jnull => some none
  | Json.jobj f => some (some f)
  | _ => none

/-- Calling `.toDouble()` on a dynamic value: succeeds on a `num`
(an `int` widens to its exact double), throws otherwise. -/
def jsonToDouble : Json → Option ℚ
  | Json.jint n => some (n : ℚ)
  | Json.jnum q => some q
  | _ => none

/-- Calling `?.toDouble()` on a dynamic value: `null` stays `null`,
a `num` converts, anything else throws. -/
def asOptDouble : Json → Option (Option ℚ)
  | Json.jnull => some none
  | Json.jint n => some (some (n : ℚ))
  | Json.jnum q => some (some q)
  | _ => none

/-- Encoding of a Dart `String?` field value. -/
def optStr : Option String → Json
  | none => Json.jnull
  | some s => Json.jstr s

/-- Encoding of a Dart `int?` field value. -/
def optInt : Option Int → Json
  | none => Json.jnull
  | some n => Json.jint n

/-- Encoding of a Dart `double?` field value. -/
def optNum : Option ℚ → Json
  | none => Json.jnull
  | some q => Json.jnum q

/-- Encoding of a Dart `Map<String, dynamic>?` field value. -/
def optObj : Option (List (String × Json)) → Json
  | none => Json.jnull
  | some f => Json.jobj f

/-- Encoding of a nullable nested object written as `value?.toJson()`. -/
def optJson : Option Json → Json
  | none => Json.jnull
  | some v => v

/-- Key list of a wire object (empty for non-objects). -/
def jsonKeys : Json → List String
  | Json.jobj f => f.map Prod.fst
  | _ => []

/-- The `FarmerRequest` model class of
`src/mobile_app/lib/services/api_service.dart`. -/
structure FarmerRequest where
  cropType : String
  quantityKg : ℚ
  location : String
  destinationMarket : String
  preferredDeliveryTime : Option String
deriving DecidableEq

/-- `FarmerRequest.toJson` from the source. -/
def FarmerRequest.toJson (r : FarmerRequest) : Json :=
  Json.jobj
    [ ("crop_type", Json.jstr r.cropType),
      ("quantity_kg", Json.jnum r.quantityKg),
      ("location", Json.jstr r.location),
      ("destination_market", Json.jstr r.destinationMarket),
      ("preferred_delivery_time", optStr r.preferredDeliveryTime) ]

/-- `FarmerRequest.fromJson` from the source; Dart runtime type errors
surface as `none`. -/
def FarmerRequest.fromJson (j : Json) : Option FarmerRequest := do
  let f ← asObj j
  let cropType ← asString (jLookup f "crop_type")
  let quantityKg ← jsonToDouble (jLookup f "quantity_kg")
  let location ← asString (jLookup f "location")
  let destinationMarket ← asString (jLookup f "destination_market")
  let preferredDeliveryTime ← asOptString (jLookup f "preferred_delivery_time")
  pure ⟨cropType, quantityKg, location, destinationMarket, preferredDeliveryTime⟩

/-- The `TransporterProfile` model class of
`src/mobile_app/lib/services/api_service.dart` (its five fields exactly). -/
structure TransporterProfile where
  vehicleType : String
  capacityKg : ℚ
  currentLocation : String
  availability : Bool
  contactInfo : String
deriving DecidableEq

/-- `TransporterProfile.toJson` from the source. -/
def TransporterProfile.toJson (t : TransporterProfile) : Json :=
  Json.jobj
    [ ("vehicle_type", Json.jstr t.vehicleType),
      ("capacity_kg", Json.jnum t.capacityKg),
      ("current_location", Json.jstr t.currentLocation),
      ("availability", Json.jbool t.availability),
      ("contact_info", Json.jstr t.contactInfo) ]

/-- `TransporterProfile.fromJson` from the source. -/
def TransporterProfile.fromJson (j : Json) : Option TransporterProfile := do
  let f ← asObj j
  let vehicleType ← asString (jLookup f "vehicle_type")
  let capacityKg ← jsonToDouble (jLookup f "capacity_kg")
  let currentLocation ← asString (jLookup f "current_location")
  let availability ← asBool (jLookup f "availability")
  let contactInfo ← asString (jLookup f "contact_info")
  pure ⟨vehicleType, capacityKg, currentLocation, availability, contactInfo⟩

/-- The `TransportJob` model class of
`src/mobile_app/lib/services/api_service.dart`.  `routeOptimization` is the
raw `Map<String, dynamic>?` the source keeps uninterpreted. -/
structure TransportJob where
  id : Option Int
  farmerRequest : FarmerRequest
  transporter : Option TransporterProfile
  status : String
  estimatedArrival : Option String
  routeOptimization : Option (List (String × Json))
  spoilageRisk : Option ℚ
  createdAt : Option String

/-- `TransportJob.toJson` from the source: every key is always written,
absent optionals as explicit nulls. -/
def TransportJob.toJson (j : TransportJob) : Json :=
  Json.jobj
    [ ("id", optInt j.id),
      ("farmer_request", j.farmerRequest.toJson),
      ("transporter", optJson (j.transporter.map TransporterProfile.toJson)),
      ("status", Json.jstr j.status),
      ("estimated_arrival", optStr j.estimatedArrival),
      ("route_optimization", optObj j.routeOptimization),
      ("spoilage_risk", optNum j.spoilageRisk),
      ("created_at", optStr j.createdAt) ]

/-- `TransportJob.fromJson` from the source, with its explicit null check
on `transporter` and the `?.toDouble()` on `spoilage_risk`. -/
def TransportJob.fromJson (j : Json) : Option TransportJob := do
  let f ← asObj j
  let id ← asOptInt (jLookup f "id")
  let farmerRequest ← FarmerRequest.fromJson (jLookup f "farmer_request")
  let transporter ←
    match jLookup f "transporter" with
    | Json.jnull => some none
    | t => (TransporterProfile.fromJson t).map some
  let status ← asString (jLookup f "status")
  let estimatedArrival ← asOptString (jLookup f "estimated_arrival")
  let routeOptimization ← asOptObj (jLookup f "route_optimization")
  let spoilageRisk ← asOptDouble (jLookup f "spoilage_risk")
  let createdAt ← asOptString (jLookup f "created_at")
  pure ⟨id, farmerRequest, transporter, status, estimatedArrival,
        routeOptimization, spoilageRisk, createdAt⟩

/-- Lifecycle statuses of a `TransportJob` named in the spec, section 4.3. -/
inductive JobStatus where
  | requested : JobStatus
  | matched : JobStatus
  | inTransit : JobStatus
  | delivered : JobStatus
  | cancelled : JobStatus
  | failed : JobStatus
deriving DecidableEq, Fintype

/-- Wire name of each lifecycle status. -/
def JobStatus.wireName : JobStatus → String
  | .requested => "requested"
  | .matched => "matched"
  | .inTransit => "in_transit"
  | .delivered => "delivered"
  | .cancelled => "cancelled"
  | .failed => "failed"

/-- The six status names of the spec state machine, as wire strings. -/
def specStatusNames : List String :=
  ["requested", "matched", "in_transit", "delivered", "cancelled", "failed"]

/-- Modelled from the spec: the Job Lifecycle Manager state machine of
section 4.3 belongs to the backend decision engine, which ships no code in
the repository.  Edges follow the states line of section 4.3:
`requested → matched → in_transit → delivered` with branch exits
`matched → cancelled`, `in_transit → cancelled`, `requested → failed`. -/
def stepAllowed : JobStatus → JobStatus → Bool
  | .requested, .matched => true
  | .matched, .inTransit => true
  | .inTransit, .delivered => true
  | .matched, .cancelled => true
  | .inTransit, .cancelled => true
  | .requested, .failed => true
  | _, _ => false

/-- Terminal statuses of the spec state machine (`delivered`, `cancelled`,
`failed`). -/
def isTerminal : JobStatus → Bool
  | .delivered => true
  | .cancelled => true
  | .failed => true
  | _ => false

/-- One row of the mock job table in
`src/admin/src/components/jobs.jsx` (the fields actually set there). -/
structure AdminJob where
  id : Int
  farmer : String
  crop : String
  quantity : ℚ
  pickup : String
  destination : String
  transporter : Option String
  status : String
  date : String
  spoilageRisk : ℚ
  distance : ℚ
deriving DecidableEq

/-- The four mock jobs hard-coded in `src/admin/src/components/jobs.jsx`. -/
def adminMockJobs : List AdminJob :=
  [ ⟨1, "John Moyo", "Tomatoes", 500, "Mashonaland East", "Mbare Musika",
      some "Tinashe Transport", "completed", "2024-06-15", 0.15, 45⟩,
    ⟨2, "Sarah Ndlovu", "Maize", 1000, "Mashonaland Central", "Sakubva Market",
      some "Blessing Deliveries", "in-progress", "2024-06-15", 0.08, 85⟩,
    ⟨3, "David Chiweshe", "Beans", 300, "Masvingo", "Mbare Musika",
      none, "pending", "2024-06-14", 0.12, 290⟩,
    ⟨4, "Grace Makoni", "Potatoes", 750, "Manicaland", "Sakubva Market",
      some "Chido Couriers", "completed", "2024-06-14", 0.15, 120⟩ ]

/-- One row of the mock transporter list in
`src/admin/src/components/users.jsx`. -/
structure AdminTransporter where
  id : Int
  name : String
  vehicleType : String
  capacity : ℚ
  rating : ℚ
  completedJobs : Nat
  phone : String
deriving DecidableEq

/-- The three mock transporters hard-coded in
`src/admin/src/components/users.jsx`. -/
def adminMockTransporters : List AdminTransporter :=
  [ ⟨1, "Tinashe Transport", "truck", 2000, 4.5, 45, "+263775678901"⟩,
    ⟨2, "Blessing Deliveries", "van", 800, 4.2, 32, "+263776789012"⟩,
    ⟨3, "Chido Couriers", "pickup", 500, 4.7, 28, "+263777890123"⟩ ]

/-- The Dart comparison `job[id] == jobId` on a dynamic job map: true
exactly when the entry is an `int` equal to `jobId` (a missing key reads as
null, and null or a non-int never equals an `int`). -/
def idMatches (job : List (String × Json)) (jobId : Int) : Bool :=
  match jLookup job "id" with
  | Json.jint n => n == jobId
  | _ => false

/-- The removal performed by `_TransporterScreenState._acceptJob` in
`src/unnamed/part_000`:
`_availableJobs.removeWhere((job) => job[id] == jobId)`, which keeps, in
order, exactly the entries the predicate rejects. -/
def acceptJob (jobs : List (List (String × Json))) (jobId : Int) :
    List (List (String × Json)) :=
  jobs.filter (fun job => !(idMatches job jobId))

/-- First mock entry of `_availableJobs` in `src/unnamed/part_000`. -/
def transporterMockJob1 : List (String × Json) :=
  [ ("id", Json.jint 1), ("crop_type", Json.jstr "tomatoes"),
    ("quantity_kg", Json.jnum 500),
    ("pickup_location", Json.jstr "Mashonaland East"),
    ("destination", Json.jstr "Mbare Musika"),
    ("distance_km", Json.jnum 45), ("estimated_fare", Json.jnum 120) ]

/-- Second mock entry of `_availableJobs` in `src/unnamed/part_000`. -/
def transporterMockJob2 : List (String × Json) :=
  [ ("id", Json.jint 2), ("crop_type", Json.jstr "maize"),
    ("quantity_kg", Json.jnum 1000),
    ("pickup_location", Json.jstr "Mashonaland Central"),
    ("destination", Json.jstr "Sakubva Market"),
    ("distance_km", Json.jnum 85), ("estimated_fare", Json.jnum 200) ]

/-- The mock `_availableJobs` list of `src/unnamed/part_000`. -/
def transporterMockJobs : List (List (String × Json)) :=
  [transporterMockJob1, transporterMockJob2]

/-- Reading `json[key]` on a decoded dynamic response value: indexing a
non-map throws in Dart, here folded into the null default the callers
reject anyway. -/
def jGet (j : Json) (key : String) : Json :=
  match j with
  | Json.jobj f => jLookup f key
  | _ => Json.jnull

/-- Digit run accumulator for the decimal parser. -/
def digitsValAux : List Char → Nat → Option Nat
  | [], acc => some acc
  | c :: cs, acc =>
    if c.isDigit then digitsValAux cs (10 * acc + (c.toNat - 48)) else none

/-- Value of a non-empty all-digit run. -/
def digitsVal : List Char → Option Nat
  | [] => none
  | cs => digitsValAux cs 0

/-- Split a character run at the first dot, when present. -/
def splitFrac : List Char → List Char × Option (List Char)
  | [] => ([], none)
  | c :: cs =>
    if c = '.' then ([], some cs)
    else
      let r := splitFrac cs
      (c :: r.1, r.2)

/-- Model of the Dart library function `double.tryParse` on the plain
decimal literals the farmer form feeds it: an optional sign, an integer
digit run, and an optional fractional digit run.  (The library function
additionally accepts exponents, leading or trailing whitespace, hex,
`Infinity` and `NaN`, which no claim here touches.) -/
def parseDouble (s : String) : Option ℚ :=
  let cs := s.data
  let signBody : Bool × List Char :=
    match cs with
    | '-' :: rest => (true, rest)
    | '+' :: rest => (false, rest)
    | _ => (false, cs)
  let parts := splitFrac signBody.2
  let mag : Option ℚ :=
    match parts.2 with
    | none => (digitsVal parts.1).map (fun n => (n : ℚ))
    | some fp =>
      match digitsVal parts.1, digitsVal fp with
      | some i, some f => some ((i : ℚ) + (f : ℚ) / (10 : ℚ) ^ fp.length)
      | _, _ => none
  mag.map (fun q => if signBody.1 then -q else q)

/-- The crop dropdown items of `src/mobile_app/lib/screens/farmer_screen.dart`. -/
def cropTypes : List String :=
  ["tomatoes", "maize", "beans", "potatoes", "cabbage", "other"]

/-- The crop dropdown validator of farmer_screen.dart. -/
def cropValidator : Option String → Option String
  | none => some "Please select a crop type"
  | some v => if v.isEmpty then some "Please select a crop type" else none

/-- The quantity field validator of farmer_screen.dart: it rejects an empty
field and text that does not parse as a number, and nothing else. -/
def quantityValidator : Option String → Option String
  | none => some "Please enter quantity"
  | some v =>
    if v.isEmpty then some "Please enter quantity"
    else if (parseDouble v).isNone then some "Please enter a valid number"
    else none

/-- The pickup location validator of farmer_screen.dart. -/
def locationValidator : Option String → Option String
  | none => some "Please enter pickup location"
  | some v => if v.isEmpty then some "Please enter pickup location" else none

/-- The destination market validator of farmer_screen.dart. -/
def marketValidator : Option String → Option String
  | none => some "Please enter destination market"
  | some v => if v.isEmpty then some "Please enter destination market" else none

/-- The form state of `_FarmerScreenState` relevant to submission. -/
structure FarmerForm where
  selectedCrop : Option String
  quantityText : String
  locationText : String
  marketText : String

/-- The check `_formKey.currentState!.validate()`: all four field
validators return null. -/
def formValid (f : FarmerForm) : Bool :=
  (cropValidator f.selectedCrop).isNone
    && (quantityValidator (some f.quantityText)).isNone
    && (locationValidator (some f.locationText)).isNone
    && (marketValidator (some f.marketText)).isNone

/-- The request map built by `_submitRequest` in farmer_screen.dart, built
and posted only when validation passes. -/
def submitRequestBody (f : FarmerForm) : Option Json :=
  if formValid f then
    some (Json.jobj
      [ ("crop_type", optStr f.selectedCrop),
        ("quantity_kg", optNum (parseDouble f.quantityText)),
        ("location", Json.jstr f.locationText),
        ("destination_market", Json.jstr f.marketText) ])
  else none

/-- An HTTP response as the mobile client sees it. -/
structure HttpResponse where
  statusCode : Nat
  body : Json

/-- `ApiService.matchTransport` in api_service.dart: returns the decoded
body on HTTP 200 and throws on any other status code (`none`). -/
def matchTransportClient (resp : HttpResponse) : Option Json :=
  if resp.statusCode == 200 then some resp.body else none

/-- Outcome of `_submitRequest`: either `_currentJob` is set to a parsed
`TransportJob`, or the error snackbar path runs and no job is constructed. -/
inductive SubmitOutcome where
  | accepted (j : TransportJob) : SubmitOutcome
  | rejected : SubmitOutcome

/-- `_FarmerScreenState._submitRequest` from farmer_screen.dart: validate,
POST through `ApiService.matchTransport`, and only on a decoded body whose
`success` field is the boolean true parse `transport_job`; every thrown
exception lands in the catch block without touching `_currentJob`. -/
def submitRequest (f : FarmerForm) (resp : HttpResponse) : SubmitOutcome :=
  if formValid f then
    match matchTransportClient resp with
    | none => SubmitOutcome.rejected
    | some body =>
      match jGet body "success" with
      | Json.jbool true =>
        match TransportJob.fromJson (jGet body "transport_job") with
        | some j => SubmitOutcome.accepted j
        | none => SubmitOutcome.rejected
      | _ => SubmitOutcome.rejected
  else SubmitOutcome.rejected

/-- Modelled from the spec: one transporter record of the pool as the
section 4.1 Matching Engine reads it — availability flag, capacity,
current location with its snapshot age, rating, and the registration order
used for deterministic tie-breaking.  The engine ships no code in the
repository. -/
structure PoolTransporter where
  name : String
  vehicleType : String
  capacityKg : ℚ
  currentLocation : String
  availability : Bool
  rating : ℚ
  joinOrder : Nat
  locationAgeSec : Nat
deriving DecidableEq

/-- Modelled from the spec: the request fields the Matching Engine filter
and scoring read. -/
structure MatchRequest where
  cropType : String
  quantityKg : ℚ
  location : String
  destinationMarket : String
deriving DecidableEq

/-- Modelled from the spec: the tunable matching configuration — the
staleness TTL and the three scoring weights section 9 leaves configurable. -/
structure MatchConfig where
  stalenessTTLsec : Nat
  wDistance : ℚ
  wRating : ℚ
  wCapacityFit : ℚ
deriving DecidableEq

/-- Modelled from the spec: the section 4.1 candidate filter —
`availability == true`, `capacity_kg >= request.quantity_kg`, location
staleness within bound. -/
def passesFilter (cfg : MatchConfig) (req : MatchRequest)
    (t : PoolTransporter) : Bool :=
  t.availability && decide (req.quantityKg ≤ t.capacityKg)
    && decide (t.locationAgeSec ≤ cfg.stalenessTTLsec)

/-- Modelled from the spec: the weighted candidate score — distance to the
pickup lower is better, rating higher is better, large excess capacity is
penalized. -/
def candidateScore (cfg : MatchConfig) (req : MatchRequest)
    (dist : String → String → ℚ) (t : PoolTransporter) : ℚ :=
  cfg.wRating * t.rating - cfg.wDistance * dist t.currentLocation req.location
    - cfg.wCapacityFit * (t.capacityKg - req.quantityKg)

/-- Modelled from the spec: candidate `a` beats `b` when it scores strictly
higher, or ties and registered earlier. -/
def beats (cfg : MatchConfig) (req : MatchRequest)
    (dist : String → String → ℚ) (a b : PoolTransporter) : Bool :=
  decide (candidateScore cfg req dist b < candidateScore cfg req dist a)
    || (decide (candidateScore cfg req dist a = candidateScore cfg req dist b)
        && decide (a.joinOrder < b.joinOrder))

/-- Modelled from the spec: select the highest-scoring candidate, ties
broken by earliest registration order. -/
def pickBest (cfg : MatchConfig) (req : MatchRequest)
    (dist : String → String → ℚ) :
    List PoolTransporter → Option PoolTransporter
  | [] => none
  | t :: ts =>
    match pickBest cfg req dist ts with
    | none => some t
    | some u => some (if beats cfg req dist u t then u else t)

/-- Modelled from the spec: `match(request)` — filter the pool, then select
the best candidate; an empty candidate set is `NoMatchFound` (`none`). -/
def matchTransporter (cfg : MatchConfig) (dist : String → String → ℚ)
    (pool : List PoolTransporter) (req : MatchRequest) :
    Option PoolTransporter :=
  pickBest cfg req dist (pool.filter (passesFilter cfg req))

/-- Modelled from the spec: a per-crop perishability profile of the
section 4.4 Spoilage Risk Model — a base risk rate per transit hour, the
crop-specific safe temperature threshold, and the amplification per degree
above it.  Section 9 leaves the concrete curves as tunable configuration. -/
structure CropProfile where
  baseRate : ℚ
  safeTempC : ℚ
  heatFactor : ℚ
deriving DecidableEq

/-- Modelled from the spec: spoilage model configuration — a profile per
known crop plus the conservative default curve for unknown crops. -/
structure SpoilageConfig where
  profiles : List (String × CropProfile)
  defaultProfile : CropProfile
deriving DecidableEq

/-- Profile lookup with the conservative fallback for unknown crops. -/
def profileFor (cfg : SpoilageConfig) (crop : String) : CropProfile :=
  match cfg.profiles.lookup crop with
  | some p => p
  | none => cfg.defaultProfile

/-- Clamp to the closed interval [0,1]. -/
def clamp01 (q : ℚ) : ℚ := min 1 (max 0 q)

/-- Modelled from the spec:
`assess(cropType, estimatedDurationHours, temperatureCelsius)` — risk
accrues with duration, amplified above the crop-specific safe temperature,
and the output is clamped to [0,1]. -/
def assess (cfg : SpoilageConfig) (crop : String)
    (durationHours tempC : ℚ) : ℚ :=
  let p := profileFor cfg crop
  clamp01 (p.baseRate * durationHours
    * (1 + p.heatFactor * max 0 (tempC - p.safeTempC)))

/-- Nonnegative rates and amplification factors, which any meaningful
tuning of the spec model satisfies. -/
def SpoilageConfig.Valid (cfg : SpoilageConfig) : Prop :=
  (∀ p ∈ cfg.profiles.map Prod.snd, 0 ≤ p.baseRate ∧ 0 ≤ p.heatFactor)
    ∧ 0 ≤ cfg.defaultProfile.baseRate ∧ 0 ≤ cfg.defaultProfile.heatFactor

/-- Modelled from the spec: the atomic events of the section 5 reservation
protocol on a single transporter record — the Matching Engine performs an
atomic compare-and-set reserve against the reservation token, and the Job
Lifecycle Manager commit/release paths clear it.  A set of concurrent
attempts is modelled as an arbitrary interleaving (list) of these atomic
events. -/
inductive ResEvent where
  | reserve (jobId : Nat) : ResEvent
  | release (jobId : Nat) : ResEvent
deriving DecidableEq

/-- Modelled from the spec: the atomic compare-and-set on the reservation
token — it succeeds exactly when the token is free. -/
def casReserve (token : Option Nat) (jobId : Nat) : Option Nat × Bool :=
  match token with
  | none => (some jobId, true)
  | some h => (some h, false)

/-- Modelled from the spec: clearing the reservation held by a job;
releasing a token not held by that job changes nothing (idempotent). -/
def releaseToken (token : Option Nat) (jobId : Nat) : Option Nat :=
  match token with
  | some h => if h = jobId then none else some h
  | none => none

/-- True when the trace contains a clearing (release/commit) event. -/
def hasRelease : List ResEvent → Bool
  | [] => false
  | ResEvent.release _ :: _ => true
  | ResEvent.reserve _ :: es => hasRelease es

/-- Run an interleaving of reservation events against one transporter
token: final token and the job ids whose compare-and-set succeeded, in
order. -/
def runReservations (token : Option Nat) :
    List ResEvent → Option Nat × List Nat
  | [] => (token, [])
  | ResEvent.reserve j :: es =>
    let r := casReserve token j
    let rest := runReservations r.1 es
    (rest.1, if r.2 then j :: rest.2 else rest.2)
  | ResEvent.release j :: es => runReservations (releaseToken token j) es

/-- Test configuration for the matching model: TTL 600 seconds, unit
weights. -/
def matchCfgT : MatchConfig := ⟨600, 1, 1, 1⟩

/-- Test distance table: a flat 50 km between any two locations. -/
def distT : String → String → ℚ := fun _ _ => 50

/-- Test pool built from the three admin mock transporters, all available
with fresh locations. -/
def poolT : List PoolTransporter :=
  [ ⟨"Tinashe Transport", "truck", 2000, "Harare", true, mkRat 9 2, 0, 0⟩,
    ⟨"Blessing Deliveries", "van", 800, "Gweru", true, mkRat 21 5, 1, 0⟩,
    ⟨"Chido Couriers", "pickup", 500, "Mutare", true, mkRat 47 10, 2, 0⟩ ]

/-- Test request: 1000 kg of maize — only the 2000 kg truck has capacity. -/
def reqT : MatchRequest :=
  ⟨"maize", 1000, "Mashonaland Central", "Sakubva Market"⟩

/-- Test spoilage configuration with profiles for the five named crops. -/
def spoilCfgT : SpoilageConfig :=
  ⟨[ ("tomatoes", ⟨mkRat 2 25, 10, mkRat 1 20⟩),
     ("maize", ⟨mkRat 1 100, 25, mkRat 1 50⟩),
     ("beans", ⟨mkRat 1 50, 20, mkRat 1 50⟩),
     ("potatoes", ⟨mkRat 3 100, 15, mkRat 3 100⟩),
     ("cabbage", ⟨mkRat 3 50, 12, mkRat 1 25⟩) ],
   ⟨mkRat 2 25, 10, mkRat 1 20⟩⟩

/-- Test form state: a valid 500 kg tomatoes request. -/
def okForm : FarmerForm :=
  ⟨some "tomatoes", "500", "Mashonaland East", "Mbare Musika"⟩

/-- The request map `_submitRequest` posts for `okForm`. -/
def okRequestBody : Json :=
  Json.jobj
    [ ("crop_type", optStr (some "tomatoes")),
      ("quantity_kg", optNum (parseDouble "500")),
      ("location", Json.jstr "Mashonaland East"),
      ("destination_market", Json.jstr "Mbare Musika") ]

/-- Test success response carrying a matched transport job. -/
def okResp : HttpResponse :=
  ⟨200, Json.jobj
    [ ("success", Json.jbool true),
      ("transport_job", Json.jobj
        [ ("farmer_request", Json.jobj
            [ ("crop_type", Json.jstr "tomatoes"),
              ("quantity_kg", Json.jnum 500),
              ("location", Json.jstr "Mashonaland East"),
              ("destination_market", Json.jstr "Mbare Musika") ]),
          ("status", Json.jstr "requested") ]) ]⟩

/-- The job `okResp` parses to. -/
def okJob : TransportJob :=
  ⟨none, ⟨"tomatoes", 500, "Mashonaland East", "Mbare Musika", none⟩,
   none, "requested", none, none, none, none⟩

/-- Form state with quantity text 0: the failing input of the quantity
validator. -/
def zeroForm : FarmerForm :=
  ⟨some "tomatoes", "0", "Mashonaland East", "Mbare Musika"⟩

theorem farmerRequest_fromJson_toJson (r : FarmerRequest) :
    FarmerRequest.fromJson r.toJson = some r := by
  obtain ⟨c, q, l, m, p⟩ := r
  cases p <;> rfl

theorem transporterProfile_fromJson_toJson (t : TransporterProfile) :
    TransporterProfile.fromJson t.toJson = some t := by
  rfl

/-- C1.  Serializing a `TransportJob` with `toJson` and parsing the result
back with `fromJson` reproduces the original value field-for-field,
including the nested `FarmerRequest` and, when present, the
`TransporterProfile`. -/
theorem transportJob_roundtrip (j : TransportJob) :
    TransportJob.fromJson j.toJson = some j := by
  obtain ⟨id, fr, tr, st, ea, ro, sr, ca⟩ := j
  obtain ⟨c, q, l, m, p⟩ := fr
  cases id <;> cases tr <;> cases ea <;> cases ro <;> cases sr <;>
    cases ca <;> cases p <;> rfl

/-- C2.  The wire form of a `TransportJob` consists of exactly the keys
`id, farmer_request, transporter, status, estimated_arrival,
route_optimization, spoilage_risk, created_at`; and a wire object in which
every optional field (`transporter`, `estimated_arrival`,
`route_optimization`, `spoilage_risk`) is absent still deserializes
successfully, representing each absent field as not-yet-computed (`none`)
rather than failing. -/
theorem transportJob_wire_shape :
    (∀ j : TransportJob, jsonKeys j.toJson =
      ["id", "farmer_request", "transporter", "status", "estimated_arrival",
       "route_optimization", "spoilage_risk", "created_at"])
    ∧ (∀ (n : Int) (fr : FarmerRequest) (s c : String),
        TransportJob.fromJson (Json.jobj
          [ ("id", Json.jint n), ("farmer_request", fr.toJson),
            ("status", Json.jstr s), ("created_at", Json.jstr c) ]) =
        some ⟨some n, fr, none, s, none, none, none, some c⟩) := by
  refine ⟨fun j => rfl, fun n fr s c => ?_⟩
  obtain ⟨cc, q, l, m, p⟩ := fr
  cases p <;> rfl

/-- C5 counterexample.  The admin dashboard mock jobs carry the status
`completed`, which is not one of the six statuses
`requested, matched, in_transit, delivered, cancelled, failed` the claim
enumerates, so not every job status in the repository is drawn from that
enumeration. -/
theorem adminMock_status_outside_enumeration :
    "completed" ∈ adminMockJobs.map AdminJob.status ∧
    "completed" ∉ specStatusNames := by
  decide

/-- C5 amended.  In the lifecycle state machine modelled from the spec,
every status is one of the six statuses of `specStatusNames`, every
allowed status change follows one of the edges
`requested → matched → in_transit → delivered`, `matched → cancelled`,
`in_transit → cancelled`, `requested → failed`, and terminal states are
never left; the admin dashboard mock jobs, however, use the separate
display vocabulary `pending`, `in-progress`, `completed`. -/
theorem lifecycle_state_machine :
    (∀ s t : JobStatus, stepAllowed s t = true →
      (s, t) ∈ [(JobStatus.requested, JobStatus.matched),
                (JobStatus.matched, JobStatus.inTransit),
                (JobStatus.inTransit, JobStatus.delivered),
                (JobStatus.matched, JobStatus.cancelled),
                (JobStatus.inTransit, JobStatus.cancelled),
                (JobStatus.requested, JobStatus.failed)])
    ∧ (∀ s t : JobStatus, isTerminal s = true → stepAllowed s t = false)
    ∧ (∀ s : JobStatus, s.wireName ∈ specStatusNames)
    ∧ (∀ j ∈ adminMockJobs,
        j.status ∈ ["pending", "in-progress", "completed"]) := by
  refine ⟨by decide, by decide, by decide, by decide⟩

/-- Witness for `lifecycle_state_machine`: the edge hypothesis and the
terminal hypothesis discharged at concrete statuses, and a concrete mock
job. -/
theorem lifecycle_state_machine_witness :
    ((JobStatus.requested, JobStatus.matched) ∈
      [(JobStatus.requested, JobStatus.matched),
       (JobStatus.matched, JobStatus.inTransit),
       (JobStatus.inTransit, JobStatus.delivered),
       (JobStatus.matched, JobStatus.cancelled),
       (JobStatus.inTransit, JobStatus.cancelled),
       (JobStatus.requested, JobStatus.failed)])
    ∧ stepAllowed JobStatus.delivered JobStatus.requested = false
    ∧ "completed" ∈ ["pending", "in-progress", "completed"] :=
  ⟨lifecycle_state_machine.1 JobStatus.requested JobStatus.matched (by decide),
   lifecycle_state_machine.2.1 JobStatus.delivered JobStatus.requested (by decide),
   lifecycle_state_machine.2.2.2
     ⟨1, "John Moyo", "Tomatoes", 500, "Mashonaland East", "Mbare Musika",
      some "Tinashe Transport", "completed", "2024-06-15", 0.15, 45⟩
     (by simp [adminMockJobs])⟩

/-- C7 counterexample.  The wire form of a `TransporterProfile` has exactly
the five keys `vehicle_type, capacity_kg, current_location, availability,
contact_info`; there is no `rating` key, so a rating is not carried by the
profile nor preserved by its serialization. -/
theorem transporterProfile_no_rating :
    jsonKeys (TransporterProfile.toJson
      ⟨"truck", 2000, "Mashonaland East", true, "+263775678901"⟩) =
      ["vehicle_type", "capacity_kg", "current_location", "availability",
       "contact_info"] ∧
    "rating" ∉ jsonKeys (TransporterProfile.toJson
      ⟨"truck", 2000, "Mashonaland East", true, "+263775678901"⟩) := by
  decide

/-- C7 amended.  Every `TransporterProfile` carries a vehicle type, a
capacity in kilograms, a current location, an availability flag and a
contact reference — but no rating field (ratings appear only on the admin
dashboard mock transporters) — and these five fields survive the JSON
round-trip; every mock transporter in the repository has capacity strictly
greater than zero. -/
theorem transporterProfile_fields_roundtrip :
    (∀ t : TransporterProfile, TransporterProfile.fromJson t.toJson = some t)
    ∧ (∀ t ∈ adminMockTransporters, 0 < t.capacity) :=
  ⟨transporterProfile_fromJson_toJson, by decide⟩

/-- Witness for `transporterProfile_fields_roundtrip`: the membership
hypothesis discharged at the first mock transporter. -/
theorem transporterProfile_fields_roundtrip_witness :
    (⟨1, "Tinashe Transport", "truck", 2000, 4.5, 45, "+263775678901"⟩ :
        AdminTransporter) ∈ adminMockTransporters ∧
    (0 : ℚ) <
      (⟨1, "Tinashe Transport", "truck", 2000, 4.5, 45, "+263775678901"⟩ :
        AdminTransporter).capacity :=
  ⟨by simp [adminMockTransporters],
   transporterProfile_fields_roundtrip.2
     ⟨1, "Tinashe Transport", "truck", 2000, 4.5, 45, "+263775678901"⟩
     (by simp [adminMockTransporters])⟩

/-- C10.  Accepting a job with a given id removes every entry with that id
from the available-jobs list, keeps every entry with another id (in order),
and accepting the same id a second time leaves the list unchanged. -/
theorem acceptJob_removes_id (jobs : List (List (String × Json)))
    (jobId : Int) :
    (∀ job ∈ acceptJob jobs jobId, idMatches job jobId = false)
    ∧ (∀ job ∈ jobs, idMatches job jobId = false →
        job ∈ acceptJob jobs jobId)
    ∧ acceptJob (acceptJob jobs jobId) jobId = acceptJob jobs jobId := by
  refine ⟨fun job h => ?_, fun job h hid => ?_, ?_⟩
  · have := (List.mem_filter.mp h).2
    simpa using this
  · exact List.mem_filter.mpr ⟨h, by simp [hid]⟩
  · simp [acceptJob, List.filter_filter]

/-- Witness for `acceptJob_removes_id`: after accepting job 1 from the
mock list, the job with id 2 is still present. -/
theorem acceptJob_removes_id_witness :
    transporterMockJob2 ∈ acceptJob transporterMockJobs 1 :=
  (acceptJob_removes_id transporterMockJobs 1).2.1 transporterMockJob2
    (by simp [transporterMockJobs]) (by rfl)

theorem pickBest_mem {cfg : MatchConfig} {req : MatchRequest}
    {dist : String → String → ℚ} :
    ∀ {l : List PoolTransporter} {t : PoolTransporter},
      pickBest cfg req dist l = some t → t ∈ l := by
  intro l
  induction l with
  | nil => intro t h; simp [pickBest] at h
  | cons a l ih =>
    intro t h
    rw [pickBest] at h
    cases hp : pickBest cfg req dist l with
    | none =>
      rw [hp] at h
      cases h
      exact List.mem_cons_self a l
    | some u =>
      rw [hp] at h
      cases h
      by_cases hb : beats cfg req dist u a = true
      · simpa [hb] using List.mem_cons_of_mem a (ih hp)
      · simp [hb]

/-- C3.  In the Matching Engine model, `match` only returns a transporter
passing the section 4.1 filter: the returned candidate is drawn from the
pool, is available, and has capacity at least the requested quantity — in
particular, `match` never returns a transporter whose `capacity_kg` is
less than the request's `quantity_kg`. -/
theorem matchTransporter_capacity (cfg : MatchConfig)
    (dist : String → String → ℚ) (pool : List PoolTransporter)
    (req : MatchRequest) (t : PoolTransporter)
    (h : matchTransporter cfg dist pool req = some t) :
    t ∈ pool ∧ t.availability = true ∧ req.quantityKg ≤ t.capacityKg ∧
      ¬ t.capacityKg < req.quantityKg := by
  have hmem := pickBest_mem h
  have hfl := List.mem_filter.mp hmem
  have hf := hfl.2
  simp only [passesFilter, Bool.and_eq_true, decide_eq_true_eq] at hf
  exact ⟨hfl.1, hf.1.1, hf.1.2, not_lt.mpr hf.1.2⟩

/-- Witness for `matchTransporter_capacity`: on the admin mock pool with
unit weights and a flat distance table, the 1000 kg maize request selects
Tinashe Transport (the only candidate with enough capacity). -/
theorem matchTransporter_capacity_witness :
    (⟨"Tinashe Transport", "truck", 2000, "Harare", true, mkRat 9 2, 0, 0⟩ :
        PoolTransporter) ∈ poolT ∧
    (⟨"Tinashe Transport", "truck", 2000, "Harare", true, mkRat 9 2, 0, 0⟩ :
        PoolTransporter).availability = true ∧
    reqT.quantityKg ≤
      (⟨"Tinashe Transport", "truck", 2000, "Harare", true, mkRat 9 2, 0, 0⟩ :
        PoolTransporter).capacityKg ∧
    ¬ (⟨"Tinashe Transport", "truck", 2000, "Harare", true, mkRat 9 2, 0, 0⟩ :
        PoolTransporter).capacityKg < reqT.quantityKg :=
  matchTransporter_capacity matchCfgT distT poolT reqT _ (by decide)

theorem lookup_mem_snd {l : List (String × CropProfile)} {k : String}
    {p : CropProfile} (h : l.lookup k = some p) : p ∈ l.map Prod.snd := by
  induction l with
  | nil => simp [List.lookup] at h
  | cons a l ih =>
    obtain ⟨ka, pa⟩ := a
    rw [List.lookup] at h
    cases hbeq : (k == ka) with
    | true =>
      simp only [hbeq, Option.some.injEq] at h
      subst h
      exact List.mem_cons_self _ _
    | false =>
      simp only [hbeq] at h
      exact List.mem_cons_of_mem _ (ih h)

theorem clamp01_mono {a b : ℚ} (h : a ≤ b) : clamp01 a ≤ clamp01 b :=
  min_le_min le_rfl (max_le_max le_rfl h)

theorem clamp01_bounds (a : ℚ) : 0 ≤ clamp01 a ∧ clamp01 a ≤ 1 :=
  ⟨le_min (by norm_num) (le_max_left 0 a), min_le_left 1 _⟩

theorem profileFor_nonneg {cfg : SpoilageConfig} (hcfg : cfg.Valid)
    (crop : String) :
    0 ≤ (profileFor cfg crop).baseRate ∧
      0 ≤ (profileFor cfg crop).heatFactor := by
  unfold profileFor
  cases hl : cfg.profiles.lookup crop with
  | none => exact ⟨hcfg.2.1, hcfg.2.2⟩
  | some p => exact hcfg.1 p (lookup_mem_snd hl)

/-- C4.  In the Spoilage Risk Model, for every crop type and fixed
temperature the assessment is monotone non-decreasing in the estimated
duration, and for every input the resulting risk score lies in [0,1]
(for every configuration with nonnegative rates). -/
theorem assess_monotone_bounded (cfg : SpoilageConfig) (hcfg : cfg.Valid)
    (crop : String) (t : ℚ) :
    (∀ d1 d2 : ℚ, d1 ≤ d2 → assess cfg crop d1 t ≤ assess cfg crop d2 t)
    ∧ (∀ d : ℚ, 0 ≤ assess cfg crop d t ∧ assess cfg crop d t ≤ 1) := by
  obtain ⟨hrate, hheat⟩ := profileFor_nonneg hcfg crop
  constructor
  · intro d1 d2 hd
    apply clamp01_mono
    have hx : 0 ≤ 1 + (profileFor cfg crop).heatFactor
        * max 0 (t - (profileFor cfg crop).safeTempC) := by
      have := mul_nonneg hheat (le_max_left 0 (t - (profileFor cfg crop).safeTempC))
      linarith
    exact mul_le_mul_of_nonneg_right
      (mul_le_mul_of_nonneg_left hd hrate) hx
  · intro d
    exact clamp01_bounds _

/-- Witness for `assess_monotone_bounded`: with the test configuration,
tomatoes over 2 hours at 30 degrees risk no more than over 6 hours, and
the 6-hour risk lies in [0,1]. -/
theorem assess_monotone_bounded_witness :
    assess spoilCfgT "tomatoes" 2 30 ≤ assess spoilCfgT "tomatoes" 6 30
    ∧ (0 ≤ assess spoilCfgT "tomatoes" 6 30
        ∧ assess spoilCfgT "tomatoes" 6 30 ≤ 1) :=
  ⟨(assess_monotone_bounded spoilCfgT (by constructor <;> decide) "tomatoes" 30).1
      2 6 (by norm_num),
   (assess_monotone_bounded spoilCfgT (by constructor <;> decide) "tomatoes" 30).2 6⟩

/-- C6.  The farmer form accepts a submission whose quantity is zero: the
quantity validator of farmer_screen.dart checks only that the text is
non-empty and parses as a number, so the form state
(tomatoes, quantity text 0) passes validation and the posted request
carries `quantity_kg = 0`, which is not strictly greater than zero (the
crop, by contrast, is drawn from the dropdown enumeration). -/
theorem farmerForm_accepts_zero_quantity :
    quantityValidator (some "0") = none
    ∧ formValid zeroForm = true
    ∧ jsonToDouble (jGet ((submitRequestBody zeroForm).getD Json.jnull)
        "quantity_kg") = some 0
    ∧ "tomatoes" ∈ cropTypes
    ∧ ¬ (0 : ℚ) > 0 := by
  refine ⟨by decide, by decide, by decide, by decide, by norm_num⟩

theorem runReservations_held (h : Nat) :
    ∀ es : List ResEvent, hasRelease es = false →
      (runReservations (some h) es).2 = [] := by
  intro es
  induction es with
  | nil => intro _; rfl
  | cons e es ih =>
    intro hno
    cases e with
    | reserve j =>
      have hes : hasRelease es = false := by simpa [hasRelease] using hno
      simp [runReservations, casReserve, ih hes]
    | release j => simp [hasRelease] at hno

/-- C9.  In the reservation protocol model, for any interleaving of
concurrent compare-and-set match attempts against the same transporter
with no intervening release, at most one attempt succeeds; in particular,
of two concurrent attempts exactly the first interleaved one wins, so no
two committed jobs ever hold the same transporter reservation
simultaneously. -/
theorem reservation_no_double_booking (es : List ResEvent)
    (hno : hasRelease es = false) :
    (runReservations none es).2.length ≤ 1
    ∧ ∀ j1 j2 : Nat,
        (runReservations none
          [ResEvent.reserve j1, ResEvent.reserve j2]).2 = [j1] := by
  constructor
  · cases es with
    | nil => simp [runReservations]
    | cons e es =>
      cases e with
      | release j => simp [hasRelease] at hno
      | reserve j =>
        have hes : hasRelease es = false := by simpa [hasRelease] using hno
        simp [runReservations, casReserve, runReservations_held j es hes]
  · intro j1 j2
    rfl

/-- Witness for `reservation_no_double_booking`: the two-attempt trace on a
pool of one transporter. -/
theorem reservation_no_double_booking_witness :
    (runReservations none
      [ResEvent.reserve 1, ResEvent.reserve 2]).2.length ≤ 1 :=
  (reservation_no_double_booking
    [ResEvent.reserve 1, ResEvent.reserve 2] rfl).1

/-- C8.  The match-transport call posts a body with exactly the keys
`crop_type, quantity_kg, location, destination_market`, and the submit flow
constructs a job exactly when the response has HTTP status 200, a `success`
field equal to the boolean true, and a parseable `transport_job` field;
every other outcome is surfaced as a failure with no job constructed. -/
theorem matchTransport_contract (f : FarmerForm) (resp : HttpResponse) :
    (∀ b, submitRequestBody f = some b →
      jsonKeys b = ["crop_type", "quantity_kg", "location",
        "destination_market"])
    ∧ (∀ j, submitRequest f resp = SubmitOutcome.accepted j ↔
        (formValid f = true ∧ resp.statusCode = 200
          ∧ jGet resp.body "success" = Json.jbool true
          ∧ TransportJob.fromJson (jGet resp.body "transport_job")
              = some j)) := by
  constructor
  · intro b h
    unfold submitRequestBody at h
    split at h
    · cases h
      rfl
    · exact absurd h (by simp)
  · intro j
    unfold submitRequest matchTransportClient
    by_cases hv : formValid f
    · simp only [hv, if_true]
      by_cases hs : resp.statusCode = 200
      · simp only [hs, beq_self_eq_true, if_true]
        cases hb : jGet resp.body "success" with
        | jbool b =>
          cases b with
          | true =>
            cases hj : TransportJob.fromJson (jGet resp.body "transport_job") with
            | none => simp [hj]
            | some j' => simp [hj, SubmitOutcome.accepted.injEq, eq_comm]
          | false => simp
        | jnull => simp
        | jint n => simp
        | jnum q => simp
        | jstr s => simp
        | jobj fs => simp
      · have : (resp.statusCode == 200) = false := by
          simpa using hs
        simp [this, hs]
    · simp [hv]

/-- Witness for `matchTransport_contract`: the valid tomato form posts the
four-key body, and the 200 success response parses into the matched job. -/
theorem matchTransport_contract_witness :
    jsonKeys okRequestBody = ["crop_type", "quantity_kg", "location",
      "destination_market"]
    ∧ submitRequest okForm okResp = SubmitOutcome.accepted okJob :=
  ⟨(matchTransport_contract okForm okResp).1 okRequestBody (by rfl),
   ((matchTransport_contract okForm okResp).2 okJob).mpr
     ⟨by rfl, rfl, by rfl, by rfl⟩⟩
